import Mathlib

/-!
Shallow embedding of `render.py` (InstantSplat evaluation script).

The embedding covers the parts of the script that the specification's claims
speak about:

* the test-time pose-refinement loop of `render_set_optimize`
  (best-candidate tracking, masked L1 loss, frozen scene parameters,
  fixed iteration budget, per-view saved outputs),
* the FPS benchmark appended to `render_set_optimize`,
* the plain evaluation render `render_set` (which images are saved per split),
* the mesh truncation-parameter derivation and the eval-path dispatch in
  `render_sets`.

Opaque external collaborators (the differentiable renderer, the Adam
optimizer/scheduler numerics, wall-clock timing) are modelled as explicit
function parameters: the renderer as a function from a pose to an image, the
optimizer trajectory as a sequence of poses, the loss evaluations as a
sequence of rationals, timing as a sequence of durations.  Machine floats are
modelled as rationals.
-/

namespace InstantSplat

/-- A (flattened) image: a list of pixel intensities. -/
abbrev Image := List ℚ

/-- A packed camera pose, as produced by `get_tensor_from_camera`:
a 7-vector `[qx, qy, qz, qw, tx, ty, tz]`. -/
abbrev PoseVec := List ℚ

/-- The slice `camera_pose[:4]` — the quaternion sub-vector. -/
def poseQ (p : PoseVec) : PoseVec := p.take 4

/-- The slice `camera_pose[-3:]` — the translation sub-vector. -/
def poseT (p : PoseVec) : PoseVec := p.drop (p.length - 3)

/-- The concatenation `torch.cat([camera_tensor_q, camera_tensor_T])`. -/
def catPose (q t : PoseVec) : PoseVec := q ++ t

/-- A camera/view record, as consumed by the render loops: the image name used
for the saved files, the ground-truth image (`view.original_image[0:3]`), and
the packed initial pose obtained from `view.world_view_transform`. -/
structure View where
  image_name : String
  original_image : Image
  camera_pose : PoseVec
deriving DecidableEq

/-- The best-candidate tracker state of one pose-refinement invocation
(`candidate_q`, `candidate_T`, `current_min_loss`, `initial_loss` in
`render_set_optimize`). -/
structure TrackState where
  candidate_q : PoseVec
  candidate_T : PoseVec
  current_min_loss : ℚ
  initial_loss : Option ℚ
deriving DecidableEq

/-- The tracker state before the loop body runs: the candidate pose is the
detached clone of the initial live pose and `current_min_loss = 1e20`. -/
def initTrack (camera_pose : PoseVec) : TrackState :=
  { candidate_q := poseQ camera_pose
    candidate_T := poseT camera_pose
    current_min_loss := 10 ^ 20
    initial_loss := none }

/-- One iteration of the refinement loop body, lines 159–187 of `render.py`:
`lossSeq i` is the loss observed at iteration `i` (render at the live pose,
masked L1 against the ground truth), and `poseSeq i` is the live
`(camera_tensor_q, camera_tensor_T)` pair after `pose_optimizer.step()` at
iteration `i`.  At iteration 0 the loss is captured as `initial_loss`; the
candidate snapshot and `current_min_loss` are updated exactly when
`loss < current_min_loss`. -/
def refineIter (lossSeq : ℕ → ℚ) (poseSeq : ℕ → PoseVec × PoseVec)
    (i : ℕ) (s : TrackState) : TrackState :=
  let loss := lossSeq i
  let s1 := if i = 0 then { s with initial_loss := some loss } else s
  if loss < s1.current_min_loss then
    { s1 with
        current_min_loss := loss
        candidate_q := (poseSeq i).1
        candidate_T := (poseSeq i).2 }
  else s1

/-- The tracker state after `n` iterations of the refinement loop, starting
from `initTrack camera_pose`. -/
def refineRun (lossSeq : ℕ → ℚ) (poseSeq : ℕ → PoseVec × PoseVec)
    (camera_pose : PoseVec) : ℕ → TrackState
  | 0 => initTrack camera_pose
  | n + 1 => refineIter lossSeq poseSeq n (refineRun lossSeq poseSeq camera_pose n)

lemma refineIter_min_le (lossSeq : ℕ → ℚ) (poseSeq : ℕ → PoseVec × PoseVec)
    (i : ℕ) (s : TrackState) :
    (refineIter lossSeq poseSeq i s).current_min_loss ≤ s.current_min_loss := by
  obtain ⟨cq, cT, m, il⟩ := s
  by_cases h0 : i = 0
  · subst h0
    simp only [refineIter, reduceIte]
    by_cases hl : lossSeq 0 < m
    · rw [if_pos hl]; exact le_of_lt hl
    · rw [if_neg hl]
  · simp only [refineIter, h0, reduceIte, if_false]
    by_cases hl : lossSeq i < m
    · rw [if_pos hl]; exact le_of_lt hl
    · rw [if_neg hl]

lemma refineIter_min_eq (lossSeq : ℕ → ℚ) (poseSeq : ℕ → PoseVec × PoseVec)
    (i : ℕ) (s : TrackState) (h : ¬ lossSeq i < s.current_min_loss) :
    (refineIter lossSeq poseSeq i s).current_min_loss = s.current_min_loss ∧
    (refineIter lossSeq poseSeq i s).candidate_q = s.candidate_q ∧
    (refineIter lossSeq poseSeq i s).candidate_T = s.candidate_T := by
  obtain ⟨cq, cT, m, il⟩ := s
  have h2 : ¬ lossSeq i < m := h
  by_cases h0 : i = 0
  · subst h0
    simp only [refineIter, reduceIte]
    rw [if_neg h2]
    exact ⟨rfl, rfl, rfl⟩
  · simp only [refineIter, h0, reduceIte, if_false]
    rw [if_neg h2]
    exact ⟨rfl, rfl, rfl⟩

lemma refineRun_min_antitone (lossSeq : ℕ → ℚ) (poseSeq : ℕ → PoseVec × PoseVec)
    (camera_pose : PoseVec) {m n : ℕ} (h : m ≤ n) :
    (refineRun lossSeq poseSeq camera_pose n).current_min_loss ≤
      (refineRun lossSeq poseSeq camera_pose m).current_min_loss := by
  induction n with
  | zero => simp_all
  | succ k ih =>
    rcases Nat.le_succ_iff.mp h with hk | hk
    · calc (refineRun lossSeq poseSeq camera_pose (k + 1)).current_min_loss
          ≤ (refineRun lossSeq poseSeq camera_pose k).current_min_loss :=
            refineIter_min_le lossSeq poseSeq k _
        _ ≤ (refineRun lossSeq poseSeq camera_pose m).current_min_loss := ih hk
    · simp [hk]

lemma refineRun_one_min_le (lossSeq : ℕ → ℚ) (poseSeq : ℕ → PoseVec × PoseVec)
    (camera_pose : PoseVec) :
    (refineRun lossSeq poseSeq camera_pose 1).current_min_loss ≤ lossSeq 0 := by
  show (refineIter lossSeq poseSeq 0 (initTrack camera_pose)).current_min_loss ≤ lossSeq 0
  simp only [refineIter, initTrack, reduceIte]
  by_cases hl : lossSeq 0 < (10 : ℚ) ^ 20
  · rw [if_pos hl]
  · rw [if_neg hl]
    exact not_lt.mp hl

/-- Claim C1: within one pose-refinement invocation, the best-candidate
tracker (`current_min_loss` together with the `candidate_q`/`candidate_T`
snapshot) changes only when the observed loss is strictly below the recorded
minimum — a tie keeps the earlier candidate — so `current_min_loss` is
non-increasing across iterations and, after the run (`n ≥ 1` iterations), it
is at most the loss observed at the first iteration. -/
theorem best_candidate_tracker_monotone (lossSeq : ℕ → ℚ)
    (poseSeq : ℕ → PoseVec × PoseVec) (camera_pose : PoseVec)
    (n i : ℕ) (hn : 1 ≤ n) :
    (¬ lossSeq i < (refineRun lossSeq poseSeq camera_pose i).current_min_loss →
        (refineRun lossSeq poseSeq camera_pose (i + 1)).current_min_loss
            = (refineRun lossSeq poseSeq camera_pose i).current_min_loss ∧
        (refineRun lossSeq poseSeq camera_pose (i + 1)).candidate_q
            = (refineRun lossSeq poseSeq camera_pose i).candidate_q ∧
        (refineRun lossSeq poseSeq camera_pose (i + 1)).candidate_T
            = (refineRun lossSeq poseSeq camera_pose i).candidate_T) ∧
    (refineRun lossSeq poseSeq camera_pose (i + 1)).current_min_loss ≤
        (refineRun lossSeq poseSeq camera_pose i).current_min_loss ∧
    (refineRun lossSeq poseSeq camera_pose n).current_min_loss ≤ lossSeq 0 := by
  refine ⟨fun h => refineIter_min_eq lossSeq poseSeq i _ h,
    refineIter_min_le lossSeq poseSeq i _, ?_⟩
  calc (refineRun lossSeq poseSeq camera_pose n).current_min_loss
      ≤ (refineRun lossSeq poseSeq camera_pose 1).current_min_loss :=
        refineRun_min_antitone lossSeq poseSeq camera_pose hn
    _ ≤ lossSeq 0 := refineRun_one_min_le lossSeq poseSeq camera_pose

/-- Witness for C1 at a concrete run: two iterations with losses 3 then 5
starting from the pose `[1,2,3,4,5,6,7]`. -/
theorem best_candidate_tracker_monotone_witness :
    (¬ (fun j => (3 : ℚ) + 2 * j) 1 <
        (refineRun (fun j => (3 : ℚ) + 2 * j) (fun _ => ([0], [0]))
          [1, 2, 3, 4, 5, 6, 7] 1).current_min_loss →
        (refineRun (fun j => (3 : ℚ) + 2 * j) (fun _ => ([0], [0]))
            [1, 2, 3, 4, 5, 6, 7] (1 + 1)).current_min_loss
          = (refineRun (fun j => (3 : ℚ) + 2 * j) (fun _ => ([0], [0]))
            [1, 2, 3, 4, 5, 6, 7] 1).current_min_loss ∧
        (refineRun (fun j => (3 : ℚ) + 2 * j) (fun _ => ([0], [0]))
            [1, 2, 3, 4, 5, 6, 7] (1 + 1)).candidate_q
          = (refineRun (fun j => (3 : ℚ) + 2 * j) (fun _ => ([0], [0]))
            [1, 2, 3, 4, 5, 6, 7] 1).candidate_q ∧
        (refineRun (fun j => (3 : ℚ) + 2 * j) (fun _ => ([0], [0]))
            [1, 2, 3, 4, 5, 6, 7] (1 + 1)).candidate_T
          = (refineRun (fun j => (3 : ℚ) + 2 * j) (fun _ => ([0], [0]))
            [1, 2, 3, 4, 5, 6, 7] 1).candidate_T) ∧
    (refineRun (fun j => (3 : ℚ) + 2 * j) (fun _ => ([0], [0]))
        [1, 2, 3, 4, 5, 6, 7] (1 + 1)).current_min_loss ≤
      (refineRun (fun j => (3 : ℚ) + 2 * j) (fun _ => ([0], [0]))
        [1, 2, 3, 4, 5, 6, 7] 1).current_min_loss ∧
    (refineRun (fun j => (3 : ℚ) + 2 * j) (fun _ => ([0], [0]))
        [1, 2, 3, 4, 5, 6, 7] 2).current_min_loss ≤ (fun j => (3 : ℚ) + 2 * j) 0 :=
  best_candidate_tracker_monotone (fun j => (3 : ℚ) + 2 * j) (fun _ => ([0], [0]))
    [1, 2, 3, 4, 5, 6, 7] 2 1 (by norm_num)

/-- The per-view output of `render_set_optimize`: the pose used for the final
rendering, the saved refined rendering, the saved ground-truth image, and the
image name of the files written. -/
structure ViewOutput where
  optimal_pose : PoseVec
  saved_render : Image
  saved_gt : Image
  saved_name : String
deriving DecidableEq

/-- Lines 131–203 of `render.py` for one view: run the refinement loop, set
`camera_tensor_q`/`camera_tensor_T` to the best candidate snapshot, form
`optimal_pose = torch.cat([camera_tensor_q, camera_tensor_T])`, render at
`optimal_pose` (`rendering_opt`) and save that rendering together with the
ground truth.  `renderImage view pose` is the opaque renderer applied at a
pose. -/
def processView (renderImage : View → PoseVec → Image)
    (lossSeq : ℕ → ℚ) (poseSeq : ℕ → PoseVec × PoseVec)
    (num_iter : ℕ) (view : View) : ViewOutput :=
  let s := refineRun lossSeq poseSeq view.camera_pose num_iter
  let optimal_pose := catPose s.candidate_q s.candidate_T
  { optimal_pose := optimal_pose
    saved_render := renderImage view optimal_pose
    saved_gt := view.original_image
    saved_name := view.image_name }

/-- Claim C2: the saved refined rendering of every view is produced at the
best-candidate snapshot (the concatenation of `candidate_q` and `candidate_T`
at the end of the loop) — and that snapshot can differ from the live optimizer
pose after the last step, so the output pose is not in general the final
optimizer state. -/
theorem saved_rendering_uses_best_candidate :
    (∀ (renderImage : View → PoseVec → Image) (lossSeq : ℕ → ℚ)
        (poseSeq : ℕ → PoseVec × PoseVec) (num_iter : ℕ) (view : View),
      (processView renderImage lossSeq poseSeq num_iter view).optimal_pose
          = catPose (refineRun lossSeq poseSeq view.camera_pose num_iter).candidate_q
              (refineRun lossSeq poseSeq view.camera_pose num_iter).candidate_T ∧
      (processView renderImage lossSeq poseSeq num_iter view).saved_render
          = renderImage view
              (catPose (refineRun lossSeq poseSeq view.camera_pose num_iter).candidate_q
                (refineRun lossSeq poseSeq view.camera_pose num_iter).candidate_T)) ∧
    (∃ (lossSeq : ℕ → ℚ) (poseSeq : ℕ → PoseVec × PoseVec) (cp : PoseVec) (n : ℕ),
      1 ≤ n ∧
      catPose (refineRun lossSeq poseSeq cp n).candidate_q
          (refineRun lossSeq poseSeq cp n).candidate_T
        ≠ catPose (poseSeq (n - 1)).1 (poseSeq (n - 1)).2) := by
  refine ⟨fun renderImage lossSeq poseSeq num_iter view => ⟨rfl, rfl⟩, ?_⟩
  refine ⟨fun j => if j = 0 then (1 : ℚ) else 2,
    fun j => if j = 0 then ([(0 : ℚ)], [(0 : ℚ)]) else ([1], [0]),
    [0, 0, 0, 0, 0, 0, 0], 2, by norm_num, ?_⟩
  decide

/-- The observable events of one iteration of the refinement loop body. -/
inductive LoopEvent where
  | renderCall
  | lossEval
  | optimStep
  | schedStep
deriving DecidableEq

/-- The event trace of the loop `for iteration in range(num_iter)` in
`render_set_optimize`: every iteration unconditionally performs one render,
one loss evaluation, one `pose_optimizer.step()` and one `scheduler.step()`;
no branch of the body inspects the loss to exit early, so the trace does not
depend on the observed losses `lossSeq`. -/
def refineTrace (lossSeq : ℕ → ℚ) : ℕ → List LoopEvent
  | 0 => []
  | n + 1 =>
    refineTrace lossSeq n ++
      [LoopEvent.renderCall, LoopEvent.lossEval, LoopEvent.optimStep, LoopEvent.schedStep]

/-- Claim C5: for every view the refinement loop performs exactly `num_iter`
iterations — one render, one loss evaluation, one optimizer step and one
scheduler step each — whatever losses are observed; there is no
error-tolerance termination and no early stopping. -/
theorem fixed_iteration_budget (lossSeq : ℕ → ℚ) (n : ℕ) :
    (refineTrace lossSeq n).count LoopEvent.renderCall = n ∧
    (refineTrace lossSeq n).count LoopEvent.lossEval = n ∧
    (refineTrace lossSeq n).count LoopEvent.optimStep = n ∧
    (refineTrace lossSeq n).count LoopEvent.schedStep = n ∧
    (refineTrace lossSeq n).length = 4 * n := by
  induction n with
  | zero => simp [refineTrace]
  | succ k ih =>
    obtain ⟨h1, h2, h3, h4, h5⟩ := ih
    simp [refineTrace, List.count_append, List.count_cons, h1, h2, h3, h4, h5]
    omega

/-- A parameter tensor of the scene representation: its values and its
autograd `requires_grad` flag. -/
structure GradTensor where
  data : List ℚ
  requires_grad : Bool
deriving DecidableEq

/-- The six Gaussian parameter tensors of the scene representation
(`gaussians._xyz`, `_features_dc`, `_features_rest`, `_opacity`, `_scaling`,
`_rotation`). -/
structure GaussianModel where
  xyz : GradTensor
  features_dc : GradTensor
  features_rest : GradTensor
  opacity : GradTensor
  scaling : GradTensor
  rotation : GradTensor
deriving DecidableEq

/-- In-place `tensor.requires_grad_(b)`: same values, new flag. -/
def setRequiresGrad (t : GradTensor) (b : Bool) : GradTensor :=
  { t with requires_grad := b }

/-- Lines 124–129 of `render.py`: disable gradient tracking on all six scene
tensors before the refinement loop begins. -/
def freezeGaussians (g : GaussianModel) : GaussianModel :=
  { xyz := setRequiresGrad g.xyz false
    features_dc := setRequiresGrad g.features_dc false
    features_rest := setRequiresGrad g.features_rest false
    opacity := setRequiresGrad g.opacity false
    scaling := setRequiresGrad g.scaling false
    rotation := setRequiresGrad g.rotation false }

/-- The parameters that could in principle be handed to the pose optimizer:
the two pose sub-vectors and the six scene tensors. -/
inductive ParamRef where
  | camera_tensor_T
  | camera_tensor_q
  | gauss_xyz
  | gauss_features_dc
  | gauss_features_rest
  | gauss_opacity
  | gauss_scaling
  | gauss_rotation
deriving DecidableEq

/-- One parameter group of the Adam construction. -/
structure ParamGroup where
  params : List ParamRef
  lr : ℚ
deriving DecidableEq

/-- Lines 137–144 of `render.py`: the parameter groups registered with
`torch.optim.Adam` — the translation sub-vector at learning rate 0.003 and
the quaternion sub-vector at learning rate 0.001, and nothing else. -/
def pose_optimizer_groups : List ParamGroup :=
  [ { params := [ParamRef.camera_tensor_T], lr := 3 / 1000 },
    { params := [ParamRef.camera_tensor_q], lr := 1 / 1000 } ]

/-- The result of one `render_set_optimize` call: the scene state after the
call, the per-view saved outputs, and — when `args.test_fps` is set — the
view/pose pair the FPS benchmark renders, or the name-resolution error raised
when the loop ran over no view and `view` / `optimal_pose` are unbound. -/
structure OptimizeRunResult where
  gaussians : GaussianModel
  outputs : List ViewOutput
  fps_benchmark : Option (Except String (View × PoseVec))

/-- The function `render_set_optimize` (lines 115–219 of `render.py`): freeze the scene
tensors, process every view with the pose-refinement loop, and, if
`args.test_fps` is set, benchmark rendering of the variables `view` and
`optimal_pose` left over from the last loop iteration.  The scene tensors are
read by every render call but never written; only the pose dynamics
(`lossAt`, `poseAt`) vary per view. -/
def render_set_optimize (renderImage : View → PoseVec → Image)
    (lossAt : View → ℕ → ℚ) (poseAt : View → ℕ → PoseVec × PoseVec)
    (test_fps : Bool) (num_iter : ℕ) (views : List View)
    (gaussians : GaussianModel) : OptimizeRunResult :=
  let frozen := freezeGaussians gaussians
  let outputs := views.map fun v => processView renderImage (lossAt v) (poseAt v) num_iter v
  let fps :=
    if test_fps then
      some (match views.getLast?, outputs.getLast? with
        | some v, some o => Except.ok (v, o.optimal_pose)
        | _, _ => Except.error "NameError: name view is not defined")
    else none
  { gaussians := frozen, outputs := outputs, fps_benchmark := fps }

/-- Claim C3: during a pose-refinement pass the six scene tensors have
gradient tracking disabled before the loop begins, their values are never
mutated by the call, and only the two pose sub-vectors are registered with
the optimizer. -/
theorem scene_parameters_frozen (renderImage : View → PoseVec → Image)
    (lossAt : View → ℕ → ℚ) (poseAt : View → ℕ → PoseVec × PoseVec)
    (test_fps : Bool) (num_iter : ℕ) (views : List View)
    (gaussians : GaussianModel) :
    ((freezeGaussians gaussians).xyz.requires_grad = false ∧
     (freezeGaussians gaussians).features_dc.requires_grad = false ∧
     (freezeGaussians gaussians).features_rest.requires_grad = false ∧
     (freezeGaussians gaussians).opacity.requires_grad = false ∧
     (freezeGaussians gaussians).scaling.requires_grad = false ∧
     (freezeGaussians gaussians).rotation.requires_grad = false) ∧
    (render_set_optimize renderImage lossAt poseAt test_fps num_iter views
        gaussians).gaussians = freezeGaussians gaussians ∧
    ((render_set_optimize renderImage lossAt poseAt test_fps num_iter views
        gaussians).gaussians.xyz.data = gaussians.xyz.data ∧
     (render_set_optimize renderImage lossAt poseAt test_fps num_iter views
        gaussians).gaussians.features_dc.data = gaussians.features_dc.data ∧
     (render_set_optimize renderImage lossAt poseAt test_fps num_iter views
        gaussians).gaussians.features_rest.data = gaussians.features_rest.data ∧
     (render_set_optimize renderImage lossAt poseAt test_fps num_iter views
        gaussians).gaussians.opacity.data = gaussians.opacity.data ∧
     (render_set_optimize renderImage lossAt poseAt test_fps num_iter views
        gaussians).gaussians.scaling.data = gaussians.scaling.data ∧
     (render_set_optimize renderImage lossAt poseAt test_fps num_iter views
        gaussians).gaussians.rotation.data = gaussians.rotation.data) ∧
    (∀ grp ∈ pose_optimizer_groups, ∀ p ∈ grp.params,
      p = ParamRef.camera_tensor_T ∨ p = ParamRef.camera_tensor_q) := by
  refine ⟨⟨rfl, rfl, rfl, rfl, rfl, rfl⟩, rfl,
    ⟨rfl, rfl, rfl, rfl, rfl, rfl⟩, ?_⟩
  decide

/-- Claim C9: the FPS benchmark reads the loop variables of the last processed
view — it renders the final view at its refined pose — so with the benchmark
flag set and an empty view sequence it fails with a name-resolution error
instead of producing a measurement, and with at least one view it benchmarks
exactly the last view at that view's best-candidate pose. -/
theorem fps_benchmark_uses_last_view :
    (∀ (renderImage : View → PoseVec → Image) (lossAt : View → ℕ → ℚ)
        (poseAt : View → ℕ → PoseVec × PoseVec) (num_iter : ℕ)
        (gaussians : GaussianModel),
      (render_set_optimize renderImage lossAt poseAt true num_iter []
          gaussians).fps_benchmark
        = some (Except.error "NameError: name view is not defined")) ∧
    (∀ (renderImage : View → PoseVec → Image) (lossAt : View → ℕ → ℚ)
        (poseAt : View → ℕ → PoseVec × PoseVec) (num_iter : ℕ)
        (gaussians : GaussianModel) (vs : List View) (v : View),
      (render_set_optimize renderImage lossAt poseAt true num_iter (vs ++ [v])
          gaussians).fps_benchmark
        = some (Except.ok
            (v, (processView renderImage (lossAt v) (poseAt v) num_iter
                    v).optimal_pose))) := by
  constructor
  · intro renderImage lossAt poseAt num_iter gaussians
    rfl
  · intro renderImage lossAt poseAt num_iter gaussians vs v
    simp [render_set_optimize, List.getLast?_concat, List.map_append]

/-- Line 167 of `render.py`: `black_hole_threshold = 0.0`. -/
def black_hole_threshold : ℚ := 0

/-- Line 168 of `render.py`: `mask = (rendering > black_hole_threshold).float()`
— elementwise 1 where the rendered intensity is strictly above the threshold
and 0 elsewhere. -/
def maskImage (rendering : Image) : Image :=
  rendering.map fun r => if black_hole_threshold < r then 1 else 0

/-- The per-pixel contributions `|output - gt| * mask` of the masked L1
loss. -/
def maskedTerms (network_output gt mask : Image) : List ℚ :=
  List.zipWith (fun p m => |p.1 - p.2| * m) (network_output.zip gt) mask

/-- Modelled from the spec: `l1_loss_mask` lives in `utils/loss_utils.py`,
which is not among the provided sources.  The spec describes it as a masked
L1 photometric loss against the ground-truth image in which the mask
suppresses the masked pixels: the absolute colour differences are weighted by
the mask and averaged over the unmasked pixels. -/
def l1_loss_mask (network_output gt mask : Image) : ℚ :=
  (maskedTerms network_output gt mask).sum / mask.sum

lemma maskedTerms_set_of_mask_zero :
    ∀ (o g m : List ℚ) (i : ℕ) (v : ℚ), m[i]? = some 0 →
      maskedTerms o (g.set i v) m = maskedTerms o g m
  | [], _, _, _, _, _ => rfl
  | _ :: _, [], _, _, _, _ => by simp [maskedTerms]
  | _ :: _, _ :: _, [], _, _, _ => by simp [maskedTerms]
  | a :: o2, b :: g2, c :: m2, 0, v, h => by
    simp only [List.getElem?_cons_zero, Option.some.injEq] at h
    subst h
    simp [maskedTerms]
  | a :: o2, b :: g2, c :: m2, i + 1, v, h => by
    simp only [List.getElem?_cons_succ] at h
    show (fun (p : ℚ × ℚ) (m : ℚ) => |p.1 - p.2| * m) (a, b) c ::
        maskedTerms o2 (g2.set i v) m2
      = (fun (p : ℚ × ℚ) (m : ℚ) => |p.1 - p.2| * m) (a, b) c ::
        maskedTerms o2 g2 m2
    rw [maskedTerms_set_of_mask_zero o2 g2 m2 i v h]

/-- Claim C4: the photometric-loss mask is 1 exactly at pixels whose rendered
intensity is strictly greater than the fixed threshold 0.0 and 0 elsewhere;
consequently a pixel rendered at exactly zero intensity is excluded from the
loss — the masked L1 value does not depend on the ground truth at such a
pixel. -/
theorem masked_loss_zero_pixels_excluded (rendering gt : Image) (i : ℕ) (v : ℚ)
    (hzero : rendering[i]? = some 0) :
    (∀ j : ℕ, (maskImage rendering)[j]?
        = (rendering[j]?).map fun r => if black_hole_threshold < r then (1 : ℚ) else 0) ∧
    (maskImage rendering)[i]? = some 0 ∧
    l1_loss_mask rendering (gt.set i v) (maskImage rendering)
      = l1_loss_mask rendering gt (maskImage rendering) := by
  have hchar : ∀ j : ℕ, (maskImage rendering)[j]?
      = (rendering[j]?).map fun r => if black_hole_threshold < r then (1 : ℚ) else 0 := by
    intro j
    simp [maskImage]
  have hmask0 : (maskImage rendering)[i]? = some 0 := by
    rw [hchar i, hzero]
    simp [black_hole_threshold]
  refine ⟨hchar, hmask0, ?_⟩
  unfold l1_loss_mask
  rw [maskedTerms_set_of_mask_zero rendering gt (maskImage rendering) i v hmask0]

/-- Witness for C4 at a concrete image: rendering `[0, 1/2]`, ground truth
`[1/4, 3/4]`, rewriting the ground truth at the zero-rendered pixel 0. -/
theorem masked_loss_zero_pixels_excluded_witness :
    ([(0 : ℚ), 1/2] : Image)[0]? = some 0 ∧
    ((∀ j : ℕ, (maskImage [(0 : ℚ), 1/2])[j]?
        = (([(0 : ℚ), 1/2] : Image)[j]?).map
            fun r => if black_hole_threshold < r then (1 : ℚ) else 0) ∧
     (maskImage [(0 : ℚ), 1/2])[0]? = some 0 ∧
     l1_loss_mask [(0 : ℚ), 1/2] (([(1/4 : ℚ), 3/4] : Image).set 0 7)
         (maskImage [(0 : ℚ), 1/2])
       = l1_loss_mask [(0 : ℚ), 1/2] [(1/4 : ℚ), 3/4] (maskImage [(0 : ℚ), 1/2])) :=
  ⟨by decide,
    masked_loss_zero_pixels_excluded [(0 : ℚ), 1/2] [(1/4 : ℚ), 3/4] 0 7 (by decide)⟩

/-- Lines 207–212 of `render.py`: the 1000 wall-clock render durations
collected by the FPS benchmark; `durations j` is the opaque measured duration
of trial `j`. -/
def benchmark_samples (durations : ℕ → ℚ) : List ℚ :=
  (List.range 1000).map durations

/-- Lines 213–214 of `render.py`: `fps_list.sort()` followed by
`fps_list = fps_list[100:900]` — sort ascending, drop the lowest 100 samples
and keep the next 800, discarding the highest 100. -/
def benchmark_trimmed (durations : ℕ → ℚ) : List ℚ :=
  (((benchmark_samples durations).mergeSort fun a b => decide (a ≤ b)).drop 100).take 800

/-- Line 215 of `render.py`: `fps = 1 / (sum(fps_list) / len(fps_list))`. -/
def benchmark_fps (durations : ℕ → ℚ) : ℚ :=
  1 / ((benchmark_trimmed durations).sum / ((benchmark_trimmed durations).length : ℚ))

/-- Claim C6: the FPS benchmark records 1000 durations, sorts them ascending,
removes exactly the lowest 100 and highest 100 samples (2 × 100 = 200 in
total, leaving 800), and returns 1 over the mean of the remainder; for
positive duration samples the resulting fps is strictly positive. -/
theorem fps_trimmed_mean_positive (durations : ℕ → ℚ)
    (hpos : ∀ j : ℕ, 0 < durations j) :
    (benchmark_samples durations).length = 1000 ∧
    (benchmark_trimmed durations).length = 800 ∧
    (benchmark_samples durations).length - (benchmark_trimmed durations).length
      = 2 * 100 ∧
    0 < benchmark_fps durations := by
  have hlen : (benchmark_samples durations).length = 1000 := by
    simp [benchmark_samples]
  have htlen : (benchmark_trimmed durations).length = 800 := by
    simp [benchmark_trimmed, hlen]
  have hmem : ∀ x ∈ benchmark_trimmed durations, 0 < x := by
    intro x hx
    have hx1 : x ∈ (benchmark_samples durations).mergeSort fun a b => decide (a ≤ b) :=
      List.mem_of_mem_drop (List.mem_of_mem_take hx)
    have hx2 : x ∈ benchmark_samples durations := List.mem_mergeSort.mp hx1
    obtain ⟨j, _, rfl⟩ := List.mem_map.mp hx2
    exact hpos j
  have hne : benchmark_trimmed durations ≠ [] := by
    intro h
    rw [h] at htlen
    exact absurd htlen (by norm_num)
  have hsum : 0 < (benchmark_trimmed durations).sum := List.sum_pos _ hmem hne
  have hlpos : (0 : ℚ) < ((benchmark_trimmed durations).length : ℚ) := by
    rw [htlen]; norm_num
  refine ⟨hlen, htlen, by rw [hlen, htlen], ?_⟩
  unfold benchmark_fps
  exact one_div_pos.mpr (div_pos hsum hlpos)

/-- Witness for C6 with all-equal unit durations. -/
theorem fps_trimmed_mean_positive_witness :
    (benchmark_samples fun _ => (1 : ℚ)).length = 1000 ∧
    (benchmark_trimmed fun _ => (1 : ℚ)).length = 800 ∧
    (benchmark_samples fun _ => (1 : ℚ)).length
        - (benchmark_trimmed fun _ => (1 : ℚ)).length = 2 * 100 ∧
    0 < benchmark_fps fun _ => (1 : ℚ) :=
  fps_trimmed_mean_positive (fun _ => (1 : ℚ)) fun _ => by norm_num

/-- The truncation parameters used by bounded mesh extraction. -/
structure TruncParams where
  depth_trunc : ℚ
  voxel_size : ℚ
  sdf_trunc : ℚ
deriving DecidableEq

/-- Lines 337–339 of `render.py`: the derivation chain of the bounded-mesh
truncation parameters.  Each flag is a sentinel-encoded CLI value (negative
means unset): `depth_trunc = radius * 2.0` when its flag is negative,
`voxel_size = depth_trunc / mesh_res` when its flag is negative, and
`sdf_trunc = 5.0 * voxel_size` when its flag is negative; a non-negative flag
is taken verbatim. -/
def deriveTruncParams (radius mesh_res : ℚ)
    (depth_trunc_flag voxel_size_flag sdf_trunc_flag : ℚ) : TruncParams :=
  let depth_trunc := if depth_trunc_flag < 0 then radius * 2 else depth_trunc_flag
  let voxel_size := if voxel_size_flag < 0 then depth_trunc / mesh_res else voxel_size_flag
  let sdf_trunc := if sdf_trunc_flag < 0 then 5 * voxel_size else sdf_trunc_flag
  { depth_trunc := depth_trunc, voxel_size := voxel_size, sdf_trunc := sdf_trunc }

/-- Claim C7: the truncation parameters are derived in dependency order —
`depth_trunc` from the radius when its flag is negative, `voxel_size` from
the (possibly derived) `depth_trunc` when its flag is negative, `sdf_trunc`
from the (possibly derived) `voxel_size` when its flag is negative — and a
non-negative flag overrides only its own parameter; in particular, with
radius 2, mesh resolution 1024 and all flags unset, the values are
`depth_trunc = 4`, `voxel_size = 4/1024` and `sdf_trunc = 5 * (4/1024)`. -/
theorem trunc_param_derivation_chain (radius mesh_res dF vF sF : ℚ) :
    (dF < 0 →
      (deriveTruncParams radius mesh_res dF vF sF).depth_trunc = radius * 2) ∧
    (0 ≤ dF → (deriveTruncParams radius mesh_res dF vF sF).depth_trunc = dF) ∧
    (vF < 0 →
      (deriveTruncParams radius mesh_res dF vF sF).voxel_size
        = (deriveTruncParams radius mesh_res dF vF sF).depth_trunc / mesh_res) ∧
    (0 ≤ vF → (deriveTruncParams radius mesh_res dF vF sF).voxel_size = vF) ∧
    (sF < 0 →
      (deriveTruncParams radius mesh_res dF vF sF).sdf_trunc
        = 5 * (deriveTruncParams radius mesh_res dF vF sF).voxel_size) ∧
    (0 ≤ sF → (deriveTruncParams radius mesh_res dF vF sF).sdf_trunc = sF) ∧
    deriveTruncParams 2 1024 (-1) (-1) (-1)
      = { depth_trunc := 4, voxel_size := 4 / 1024, sdf_trunc := 5 * (4 / 1024) } :=
  ⟨fun h => by simp [deriveTruncParams, h],
   fun h => by simp [deriveTruncParams, not_lt.mpr h],
   fun h => by simp [deriveTruncParams, h],
   fun h => by simp [deriveTruncParams, not_lt.mpr h],
   fun h => by simp [deriveTruncParams, h],
   fun h => by simp [deriveTruncParams, not_lt.mpr h],
   by norm_num [deriveTruncParams]⟩

/-- The externally visible steps of the eval path of `render_sets`
(lines 302–310 of `render.py`) for the test split. -/
inductive EvalAction where
  | make_test_dir
  | reconstruction_optim (num_views : ℕ)
  | save_render_time
  | export_test_images
deriving DecidableEq

/-- Lines 302–310 of `render.py`: in the eval path, the test-split export runs
only under `(not args.skip_test) and (len(scene.getTestCameras()) > 0)`; it
then creates the directory, runs `reconstruction_optim` over the test
cameras, records the render time and exports the images. -/
def render_sets_eval_test (skip_test : Bool) (testCameras : List View) :
    List EvalAction :=
  if (!skip_test) && decide (0 < testCameras.length) then
    [EvalAction.make_test_dir,
     EvalAction.reconstruction_optim testCameras.length,
     EvalAction.save_render_time,
     EvalAction.export_test_images]
  else []

/-- Claim C8: with zero test views the eval-path export is a no-op rather
than an error — no reconstruction is run and nothing is exported — and the
function returns normally with an empty action list. -/
theorem empty_test_split_noop (skip_test : Bool) :
    render_sets_eval_test skip_test [] = [] ∧
    ∀ a : EvalAction, a ∉ render_sets_eval_test skip_test [] := by
  cases skip_test <;>
    exact ⟨rfl, fun a h => by simp [render_sets_eval_test] at h⟩

/-- The image files written by `render_set` (lines 100–112 of `render.py`),
identified by the loop index used in the file name. -/
inductive SaveAction where
  | save_render (idx : ℕ)
  | save_gt (idx : ℕ)
deriving DecidableEq

/-- The function `render_set` (lines 93–112 of `render.py`): for every view the rendering
is saved unconditionally, and the ground-truth image is saved only under
`if name != "interp"`. -/
def render_set_saves (name : String) (views : List View) : List SaveAction :=
  (List.range views.length).flatMap fun idx =>
    SaveAction.save_render idx ::
      (if name ≠ "interp" then [SaveAction.save_gt idx] else [])

/-- Claim C10: `render_set` saves a rendered image for every view, saves the
ground-truth image for every view exactly when the split name is not
`"interp"`, and for the interpolated-trajectory split writes no ground-truth
image at all. -/
theorem interp_split_saves_no_gt (name : String) (views : List View) (idx : ℕ) :
    (idx < views.length →
      SaveAction.save_render idx ∈ render_set_saves name views) ∧
    (name = "interp" →
      ∀ j : ℕ, SaveAction.save_gt j ∉ render_set_saves name views) ∧
    (name ≠ "interp" → idx < views.length →
      SaveAction.save_gt idx ∈ render_set_saves name views) := by
  refine ⟨?_, ?_, ?_⟩
  · intro h
    exact List.mem_flatMap.mpr ⟨idx, List.mem_range.mpr h, by simp⟩
  · intro h j hmem
    obtain ⟨k, _, hin⟩ := List.mem_flatMap.mp hmem
    simp [h] at hin
  · intro h hlt
    exact List.mem_flatMap.mpr ⟨idx, List.mem_range.mpr hlt, by simp [h]⟩

end InstantSplat
